import Mathlib

/-!
# Verification of the mw marketplace backend

Shallow embedding of the stock-mutation, shop-verification, OTP, subscription
and category-creation logic of the Flask backend (`mw_app`), together with
theorems settling the specification claims about it.

Modelling conventions:
* SQLAlchemy tables are lists of structure values; a route handler becomes a
  function from its inputs and the relevant rows to an `Except` value
  (`.error` for a 4xx JSON error response, carrying the message string and,
  where it matters, the HTTP status).
* seller_routes.py and admin_routes.py import only the `datetime` class
  (`from datetime import datetime`), yet write
  `datetime.now(datetime.timezone.utc)`; the class has no `timezone`
  attribute, so every evaluation of that expression raises AttributeError.
  The expression is embedded as `datetime_now_datetime_timezone_utc`, an
  `Except` that always fails; the success branches that would follow it in
  the source are kept in the embedding but are dead code, exactly as in the
  program.  (shop_model.py and subscription_model.py import `timezone`
  correctly; their operations succeed.)
* admin_routes.create_category tests `VALID_CATEGORY_LEVELS`, a name never
  imported into admin_routes, so the test raises NameError; embedded as the
  always-failing `VALID_CATEGORY_LEVELS_lookup`.
* Python `None`-able JSON fields become `Option` values; Python string
  `strip()` is modelled by `pyStrip` below (whitespace removal on the
  character list, kept kernel-computable).
-/

namespace MW

/-! ## Stock updates

Embeds `seller_routes.update_stock` (single product) and the per-item body of
`seller_routes.bulk_update_stock`.  The caller/ownership checks resolve the
product; the embedded functions start from the resolved product stock
(`old_stock`), exactly as the code does from line 188 of
`seller_routes.py` onwards. -/

/-- One row of the `StockUpdate` audit table (`product_model.StockUpdate`). -/
structure StockUpdateRow where
  product_id : Nat
  old_stock : Int
  new_stock : Int
  stock_change : Int
  updated_by : Nat
  reason : Option String
deriving DecidableEq, Repr

/-- Outcome of a successful stock mutation: the new `Product.stock` value and
the audit row appended in the same transaction. -/
structure StockResult where
  product_stock : Int
  row : StockUpdateRow
deriving DecidableEq, Repr

/-- Python str.strip() for the default whitespace characters: drop leading and
trailing whitespace. -/
def pyStrip (s : String) : String :=
  ⟨((s.data.dropWhile Char.isWhitespace).reverse.dropWhile Char.isWhitespace).reverse⟩

/-- Embedding of the expression `datetime.now(datetime.timezone.utc)` as it is
written in seller_routes.py (lines 235, 355, 956) and admin_routes.py (lines
360, 841).  Both modules bind `datetime` to the datetime class
(`from datetime import datetime`), and the class has no `timezone` attribute,
so every evaluation raises AttributeError.  Modelled as an `Except` whose
error carries str() of the exception (Python prints the two names quoted) and
whose value, were it ever produced, would be the tick. -/
def datetime_now_datetime_timezone_utc : Except String Nat :=
  .error "type object datetime.datetime has no attribute timezone"

/-- Auto-inference of the update reason when the caller supplies none
(`seller_routes.py` lines 191-209): compare the requested absolute value with
the current stock, or take the sign of the raw delta. -/
def inferReason (stock stock_change : Option Int) (current : Int) : String :=
  match stock with
  | some s =>
    if s > current then "restocked"
    else if s < current then "goods sold"
    else "stock adjusted"
  | none =>
    match stock_change with
    | some d =>
      if d > 0 then "restocked"
      else if d < 0 then "goods sold"
      else "stock adjusted"
    | none => "stock adjusted"

/-- Lines 233-263 of seller_routes.py: assign `product.stock`, then assign
`product.updated_at = datetime.now(datetime.timezone.utc)` (line 235) — which
raises AttributeError — create the StockUpdate row and commit.  The generic
handler (lines 272-278) catches the AttributeError, rolls back and returns a
500 with message "Error updating stock", so the `.ok` branch below is dead
code: no stock value and no audit row is ever persisted. -/
def finishStockUpdate (product_id seller_id : Nat)
    (old_stock new_stock change : Int) (reason : String) :
    Except (Nat × String) StockResult :=
  match datetime_now_datetime_timezone_utc with
  | .error _ => .error (500, "Error updating stock")
  | .ok _ =>
    .ok ⟨new_stock, ⟨product_id, old_stock, new_stock, change, seller_id, some reason⟩⟩

/-- Embedding of `seller_routes.update_stock`, from the point where the product is resolved:
reason defaulting, the neither-given validation, absolute mode (which takes
priority when both are given) and delta mode with the clamp to zero, then the
commit step `finishStockUpdate`, which always fails at the updated_at
timestamp expression. -/
def update_stock (product_id seller_id : Nat) (old_stock : Int)
    (stock stock_change : Option Int) (reason_in : Option String) :
    Except (Nat × String) StockResult :=
  let reason0 := pyStrip (reason_in.getD "")
  let reason := if reason0 = "" then inferReason stock stock_change old_stock else reason0
  match stock, stock_change with
  | none, none =>
    .error (400,
      "Either \"stock\" (absolute value) or \"stock_change\" (incremental) is required")
  | some s, _ =>
    finishStockUpdate product_id seller_id old_stock s (s - old_stock) reason
  | none, some d =>
    let new_stock := old_stock + d
    if new_stock < 0 then
      finishStockUpdate product_id seller_id old_stock 0 (-old_stock) reason
    else
      finishStockUpdate product_id seller_id old_stock new_stock d reason

/-- The per-item body of `seller_routes.bulk_update_stock` (lines 321-381),
from the point where the item product is resolved.  Unlike the single-product
route it performs no reason inference: `reason = item.get('reason','').strip()
or None` is stored as given.  After the stock computation each item assigns
`product.updated_at` (line 355), which raises AttributeError; the per-item
handler (lines 379-381) collects str() of the exception as the item error, so
every item with a value errors before its StockUpdate row is created. -/
def bulk_update_stock_item (product_id seller_id : Nat) (old_stock : Int)
    (stock stock_change : Option Int) (reason_in : Option String) :
    Except String StockResult :=
  let reason : Option String :=
    if pyStrip (reason_in.getD "") = "" then none else some (pyStrip (reason_in.getD ""))
  match stock, stock_change with
  | some s, _ =>
    (match datetime_now_datetime_timezone_utc with
     | .error e => .error e
     | .ok _ =>
       .ok ⟨s, ⟨product_id, old_stock, s, s - old_stock, seller_id, reason⟩⟩)
  | none, some d =>
    let new_stock := old_stock + d
    if new_stock < 0 then
      (match datetime_now_datetime_timezone_utc with
       | .error e => .error e
       | .ok _ =>
         .ok ⟨0, ⟨product_id, old_stock, 0, -old_stock, seller_id, reason⟩⟩)
    else
      (match datetime_now_datetime_timezone_utc with
       | .error e => .error e
       | .ok _ =>
         .ok ⟨new_stock, ⟨product_id, old_stock, new_stock, d, seller_id, reason⟩⟩)
  | none, none =>
    .error "Either \"stock\" or \"stock_change\" is required"

/-- Whether an embedded route outcome is an error response. -/
def isErr {ε α : Type} : Except ε α → Bool
  | .error _ => true
  | .ok _ => false

/-- No call of the single-product stock route ever returns a success value:
without a value it fails the required-field validation, and with one it
reaches the updated_at timestamp expression and the 500 handler. -/
theorem update_stock_never_ok (pid sid : Nat) (old : Int)
    (stock change : Option Int) (reason : Option String) :
    isErr (update_stock pid sid old stock change reason) = true := by
  cases stock with
  | some s => rfl
  | none =>
    cases change with
    | none => rfl
    | some d =>
      simp only [update_stock]
      split <;> rfl

/-- No bulk stock item ever returns a success value: without a value it draws
the per-item required-field error, and with one it reaches the updated_at
timestamp expression and errors with str() of the AttributeError. -/
theorem bulk_update_stock_item_never_ok (pid sid : Nat) (old : Int)
    (stock change : Option Int) (reason : Option String) :
    isErr (bulk_update_stock_item pid sid old stock change reason) = true := by
  cases stock with
  | some s => rfl
  | none =>
    cases change with
    | none => rfl
    | some d =>
      simp only [bulk_update_stock_item]
      split <;> rfl

/-- C1 (code bug): the claim speaks of StockUpdate audit rows produced by
stock mutations, but no mutation ever stores or records anything — every
single update_stock call and every bulk_update_stock item fails (the
required-field validation error without a value, the AttributeError raised at
the updated_at timestamp with one) and is rolled back, so no audit row and no
stock value is ever persisted.  (Were the timestamp slip fixed, the values
computed in absolute mode would moreover store a negative stock for a
negative requested value: seller_routes.py lines 220-223 have no clamp.) -/
theorem stock_mutations_never_persist (pid sid : Nat) (old : Int)
    (stock change : Option Int) (reason : Option String) :
    isErr (update_stock pid sid old stock change reason) = true ∧
    isErr (bulk_update_stock_item pid sid old stock change reason) = true :=
  ⟨update_stock_never_ok pid sid old stock change reason,
   bulk_update_stock_item_never_ok pid sid old stock change reason⟩

/-- C3 (counterexample): supplying both stock = 7 and stock_change = 3 does
not draw the required-field ValidationError — validation passes, the absolute
value takes precedence, and the call fails instead with the generic 500
handler error raised at the updated_at expression, refuting the claim that a
both-supplied call fails with a ValidationError. -/
theorem update_stock_both_supplied_no_validation_error :
    update_stock 1 1 10 (some 7) (some 3) none =
      .error (500, "Error updating stock") ∧
    ((500 : Nat), "Error updating stock") ≠
      ((400 : Nat),
        "Either \"stock\" (absolute value) or \"stock_change\" (incremental) is required") := by
  exact ⟨rfl, by decide⟩

/-- C3 (amended): update_stock draws the required-field ValidationError
exactly when neither "stock" nor "stock_change" is supplied; when both are
supplied there is no validation error — the absolute value takes precedence
and the call behaves exactly as the absolute-only call — and, like every call
that supplies a value, it then fails with the 500 handler error at the
updated_at expression, mutating nothing; no call ever succeeds. -/
theorem update_stock_requires_one (pid sid : Nat) (old : Int)
    (stock change : Option Int) (reason : Option String) :
    (update_stock pid sid old stock change reason =
        .error (400,
          "Either \"stock\" (absolute value) or \"stock_change\" (incremental) is required") ↔
      stock = none ∧ change = none) ∧
    (∀ a d, update_stock pid sid old (some a) (some d) reason =
      update_stock pid sid old (some a) none reason) ∧
    (∀ res, update_stock pid sid old stock change reason ≠ .ok res) := by
  refine ⟨?_, ?_, ?_⟩
  · cases stock with
    | some s =>
      simp [update_stock, finishStockUpdate, datetime_now_datetime_timezone_utc]
    | none =>
      cases change with
      | none => simp [update_stock]
      | some d =>
        simp only [update_stock]
        split <;> simp [finishStockUpdate, datetime_now_datetime_timezone_utc]
  · intro a d
    rfl
  · intro res h
    have hne := update_stock_never_ok pid sid old stock change reason
    rw [h] at hne
    simp [isErr] at hne

/-- C3 witness: the amended theorem at concrete calls — neither value draws
the validation error, both-supplied equals absolute-only, and a call with a
value is never a success. -/
theorem update_stock_requires_one_witness :
    update_stock 1 1 10 none none none =
      .error (400,
        "Either \"stock\" (absolute value) or \"stock_change\" (incremental) is required") ∧
    update_stock 1 1 10 (some 7) (some 3) none =
      update_stock 1 1 10 (some 7) none none ∧
    update_stock 1 1 10 (some 7) none none ≠
      .ok ⟨7, ⟨1, 10, 7, -3, 1, some "goods sold"⟩⟩ := by
  have h := update_stock_requires_one 1 1 10 none none none
  have h2 := update_stock_requires_one 1 1 10 (some 7) (some 3) none
  have h3 := update_stock_requires_one 1 1 10 (some 7) none none
  exact ⟨h.1.mpr ⟨rfl, rfl⟩, h2.2.1 7 3, h3.2.2 _⟩

/-- C4 (code bug): delta mode computes exactly the claimed values — s + d,
clamped to (0, -s) when the sum is negative — but every delta update then
raises AttributeError at the updated_at expression (seller_routes.py line
235), is rolled back and answered with the 500 handler error, so the claimed
stores and recorded changes never occur, for any current stock s and any
delta d. -/
theorem update_stock_delta_never_stores (pid sid : Nat) (s d : Int)
    (reason : Option String) :
    update_stock pid sid s none (some d) reason =
      .error (500, "Error updating stock") := by
  simp only [update_stock]
  split <;> rfl

/-- C5 (code bug): no StockUpdate.reason is ever recorded — a single
update_stock call with the reason omitted computes the inferred reason but
crashes at the updated_at expression before the audit row is created, and a
bulk item with a value errors identically, its per-item error being str() of
the AttributeError; the bulk route moreover performs no inference at all
(seller_routes.py line 326 stores the given reason or null). -/
theorem omitted_reason_never_recorded (pid sid : Nat) (old d : Int)
    (stock change : Option Int) :
    isErr (update_stock pid sid old stock change none) = true ∧
    isErr (bulk_update_stock_item pid sid old stock change none) = true ∧
    bulk_update_stock_item pid sid old none (some d) none =
      .error "type object datetime.datetime has no attribute timezone" := by
  refine ⟨update_stock_never_ok pid sid old stock change none,
    bulk_update_stock_item_never_ok pid sid old stock change none, ?_⟩
  simp only [bulk_update_stock_item]
  split <;> rfl

/-! ## Shop verification workflow

Embeds the verification sub-state of `Shop` (`shop_model.Shop`) and the admin
and seller routes that mutate it: `admin_routes.verify_shop`,
`admin_routes.reject_shop`, `admin_routes.put_shop_under_review`, the per-shop
actions of `admin_routes.bulk_verify_shops`, and
`seller_routes.request_verification`. -/

/-- Embedding of `shop_model.VerificationStatus`. -/
inductive VerificationStatus where
  | pending
  | under_review
  | verified
  | rejected
  | suspended
deriving DecidableEq, Repr

/-- The verification sub-state of a `Shop` row. -/
structure ShopV where
  verification_status : VerificationStatus
  phone_verified : Bool
  email_verified : Bool
  verification_requested_at : Option Nat
  verified_at : Option Nat
  verified_by : Option Nat
  rejection_reason : Option String
deriving DecidableEq, Repr

/-- A user row, as far as the admin-role checks need it. -/
structure UserR where
  id : Nat
  role : String
deriving DecidableEq, Repr

/-- Embedding of `admin_routes.verify_shop`: after the admin-role and
shop-existence checks, assign status VERIFIED (in memory), then evaluate the
verified_at timestamp expression (line 360), which raises AttributeError; the
handler (lines 377-383) rolls back and returns a 500 with message
"Error verifying shop", so the success branch is dead code and no shop is
ever verified. -/
def verify_shop (admin : Option UserR) (shop : Option ShopV) :
    Except (Nat × String) ShopV :=
  match admin with
  | none => .error (403, "Admin not found or unauthorized")
  | some a =>
    if a.role ≠ "admin" then .error (403, "Admin not found or unauthorized")
    else
      match shop with
      | none => .error (404, "Shop not found")
      | some sh =>
        match datetime_now_datetime_timezone_utc with
        | .error _ => .error (500, "Error verifying shop")
        | .ok now =>
          .ok { sh with
            verification_status := .verified
            verified_at := some now
            verified_by := some a.id
            rejection_reason := none }

/-- Embedding of `admin_routes.reject_shop`: requires a non-blank rejection reason, then
sets status REJECTED, stores the reason and clears verified_at/verified_by. -/
def reject_shop (admin : Option UserR) (shop : Option ShopV)
    (rejection_reason_in : Option String) : Except String ShopV :=
  let rejection_reason := pyStrip (rejection_reason_in.getD "")
  if rejection_reason = "" then .error "Rejection reason is required"
  else
    match admin with
    | none => .error "Admin not found or unauthorized"
    | some a =>
      if a.role ≠ "admin" then .error "Admin not found or unauthorized"
      else
        match shop with
        | none => .error "Shop not found"
        | some sh =>
          .ok { sh with
            verification_status := .rejected
            rejection_reason := some rejection_reason
            verified_by := none
            verified_at := none }

/-- Embedding of `admin_routes.put_shop_under_review`: after the admin-role and
shop-existence checks, set status UNDER_REVIEW.  No other field is touched. -/
def put_shop_under_review (admin : Option UserR) (shop : Option ShopV) :
    Except String ShopV :=
  match admin with
  | none => .error "Admin not found or unauthorized"
  | some a =>
    if a.role ≠ "admin" then .error "Admin not found or unauthorized"
    else
      match shop with
      | none => .error "Shop not found"
      | some sh => .ok { sh with verification_status := .under_review }

/-- The action strings accepted by `admin_routes.bulk_verify_shops`. -/
inductive BulkShopAction where
  | verify
  | reject
  | under_review
deriving DecidableEq, Repr

/-- The per-shop body of `admin_routes.bulk_verify_shops` (lines 833-858).
The bulk route performs no admin-role check; `admin_id` comes straight from
the request body and may be absent.  The verify arm assigns status VERIFIED
and then evaluates the verified_at timestamp expression (line 841), which
raises AttributeError; the per-item handler (lines 859-861) collects str() of
the exception, so the verify arm never succeeds; the reject and under_review
arms contain no timestamp and succeed. -/
def bulk_verify_shops_apply (admin_id : Option Nat)
    (rejection_reason : String) (action : BulkShopAction) (sh : ShopV) :
    Except String ShopV :=
  match action with
  | .verify =>
    (match datetime_now_datetime_timezone_utc with
     | .error e => .error e
     | .ok now =>
       .ok { sh with
         verification_status := .verified
         verified_at := some now
         verified_by := admin_id
         rejection_reason := none })
  | .reject =>
    .ok { sh with
      verification_status := .rejected
      rejection_reason := some rejection_reason
      verified_at := none
      verified_by := none }
  | .under_review =>
    .ok { sh with
      verification_status := .under_review
      rejection_reason := none }

/-- Embedding of `seller_routes.request_verification`, from the point where
the shop is resolved: phone then email precondition checks, then the VERIFIED
and UNDER_REVIEW conflict checks — all four reachable — then the assignment
of status PENDING followed by the verification_requested_at timestamp
expression (line 956), which raises AttributeError; the handler (lines
964-970) rolls back and returns a 500 with message
"Error requesting verification", so the success branch is dead code. -/
def request_verification (shop : ShopV) : Except (Nat × String) ShopV :=
  if shop.phone_verified = false then
    .error (400, "Phone must be verified before requesting shop verification")
  else if shop.email_verified = false then
    .error (400, "Email must be verified before requesting shop verification")
  else if shop.verification_status = .verified then
    .error (400, "Shop is already verified")
  else if shop.verification_status = .under_review then
    .error (400, "Shop verification is already under review")
  else
    match datetime_now_datetime_timezone_utc with
    | .error _ => .error (500, "Error requesting verification")
    | .ok now =>
      .ok { shop with
        verification_status := .pending
        verification_requested_at := some now }

/-- C2 (counterexample): putting a VERIFIED shop under review (admin route,
single shop) moves it to UNDER_REVIEW but leaves verified_at = 100 and
verified_by = 7 set, refuting the claim that the transition clears them. -/
theorem under_review_keeps_verified_fields :
    put_shop_under_review (some ⟨9, "admin"⟩)
        (some ⟨.verified, true, true, some 50, some 100, some 7, none⟩) =
      .ok ⟨.under_review, true, true, some 50, some 100, some 7, none⟩ ∧
    (ShopV.mk .under_review true true (some 50) (some 100) (some 7) none).verified_at ≠ none := by
  exact ⟨rfl, by decide⟩

/-- C2 (amended): reject (single route and bulk action) clears verified_at and
verified_by while moving to REJECTED, but the put-under-review transition
(single route and bulk action) only changes verification_status (the bulk
action also clears rejection_reason) and leaves verified_at and verified_by
exactly as they were; so a previously VERIFIED shop keeps them while in
UNDER_REVIEW. -/
theorem under_review_and_reject_fields (a : UserR) (sh : ShopV)
    (admin_id : Option Nat) (reason_in : Option String)
    (reason_str : String) :
    (a.role = "admin" →
      put_shop_under_review (some a) (some sh) =
        .ok { sh with verification_status := .under_review }) ∧
    (bulk_verify_shops_apply admin_id reason_str .under_review sh =
      .ok { sh with verification_status := .under_review, rejection_reason := none }) ∧
    (a.role = "admin" → pyStrip (reason_in.getD "") ≠ "" →
      reject_shop (some a) (some sh) reason_in =
        .ok { sh with
          verification_status := .rejected
          rejection_reason := some (pyStrip (reason_in.getD ""))
          verified_by := none
          verified_at := none }) ∧
    (bulk_verify_shops_apply admin_id reason_str .reject sh =
      .ok { sh with
        verification_status := .rejected
        rejection_reason := some reason_str
        verified_at := none
        verified_by := none }) := by
  refine ⟨?_, rfl, ?_, rfl⟩
  · intro hrole
    simp [put_shop_under_review, hrole]
  · intro hrole hreason
    simp [reject_shop, hreason, hrole]

/-- C2 witness: the amended theorem applied to a verified shop, an admin
caller and the rejection reason "fraud". -/
theorem under_review_and_reject_fields_witness :
    (put_shop_under_review (some ⟨9, "admin"⟩)
        (some ⟨.verified, true, true, some 50, some 100, some 7, none⟩) =
      .ok ⟨.under_review, true, true, some 50, some 100, some 7, none⟩) ∧
    (reject_shop (some ⟨9, "admin"⟩)
        (some ⟨.verified, true, true, some 50, some 100, some 7, none⟩)
        (some "fraud") =
      .ok ⟨.rejected, true, true, some 50, none, none, some "fraud"⟩) := by
  have h := under_review_and_reject_fields ⟨9, "admin"⟩
    ⟨.verified, true, true, some 50, some 100, some 7, none⟩ none (some "fraud") "fraud"
  exact ⟨h.1 rfl, h.2.2.1 rfl (by decide)⟩

/-- C6 (code bug): the four failure branches are exactly as claimed —
request_verification fails with the phone precondition message whenever
phone_verified is false, with the email precondition message when the phone
is verified but the email is not (the spec labels these PreconditionError),
and with a conflict message when the status is VERIFIED or UNDER_REVIEW
(ConflictError) — but in the remaining case, instead of setting status
PENDING with the request timestamp, the route raises AttributeError at the
verification_requested_at expression (seller_routes.py line 956), rolls back
and returns the 500 handler error, so the claimed success never occurs. -/
theorem request_verification_spec (shop : ShopV) :
    (shop.phone_verified = false →
      request_verification shop =
        .error (400, "Phone must be verified before requesting shop verification")) ∧
    (shop.phone_verified = true → shop.email_verified = false →
      request_verification shop =
        .error (400, "Email must be verified before requesting shop verification")) ∧
    (shop.phone_verified = true → shop.email_verified = true →
      shop.verification_status = .verified →
      request_verification shop = .error (400, "Shop is already verified")) ∧
    (shop.phone_verified = true → shop.email_verified = true →
      shop.verification_status = .under_review →
      request_verification shop =
        .error (400, "Shop verification is already under review")) ∧
    (shop.phone_verified = true → shop.email_verified = true →
      shop.verification_status ≠ .verified →
      shop.verification_status ≠ .under_review →
      request_verification shop =
        .error (500, "Error requesting verification")) := by
  refine ⟨?_, ?_, ?_, ?_, ?_⟩
  · intro hp
    simp [request_verification, hp]
  · intro hp he
    simp [request_verification, hp, he]
  · intro hp he hv
    simp [request_verification, hp, he, hv]
  · intro hp he hu
    simp [request_verification, hp, he, hu]
  · intro hp he hv hu
    simp [request_verification, hp, he, hv, hu,
      datetime_now_datetime_timezone_utc]

/-- C6 witness: the five branches exercised on concrete shops — phone
unverified (with email verified), email unverified, already VERIFIED, already
UNDER_REVIEW, and a REJECTED shop with both flags set whose request ends in
the 500 handler error instead of PENDING. -/
theorem request_verification_spec_witness :
    request_verification ⟨.pending, false, true, none, none, none, none⟩ =
      .error (400, "Phone must be verified before requesting shop verification") ∧
    request_verification ⟨.pending, true, false, none, none, none, none⟩ =
      .error (400, "Email must be verified before requesting shop verification") ∧
    request_verification ⟨.verified, true, true, none, none, none, none⟩ =
      .error (400, "Shop is already verified") ∧
    request_verification ⟨.under_review, true, true, none, none, none, none⟩ =
      .error (400, "Shop verification is already under review") ∧
    request_verification ⟨.rejected, true, true, none, none, none, some "r"⟩ =
      .error (500, "Error requesting verification") := by
  refine ⟨?_, ?_, ?_, ?_, ?_⟩
  · exact (request_verification_spec _).1 rfl
  · exact (request_verification_spec _).2.1 rfl rfl
  · exact (request_verification_spec _).2.2.1 rfl rfl rfl
  · exact (request_verification_spec _).2.2.2.1 rfl rfl rfl
  · exact (request_verification_spec _).2.2.2.2 rfl rfl (by decide) (by decide)

/-- C10 (code bug): the claimed verification effects never occur — for a
caller with the admin role and any existing shop, whatever its status and
contact flags, verify_shop raises AttributeError at the verified_at
expression (admin_routes.py line 360), rolls back and returns the 500 handler
error, and the bulk verify arm errors per shop with str() of the same
AttributeError (line 841); no shop is ever marked VERIFIED. -/
theorem verify_shop_always_errors (a : UserR) (sh : ShopV)
    (admin_id : Option Nat) (reason_str : String) :
    (a.role = "admin" →
      verify_shop (some a) (some sh) = .error (500, "Error verifying shop")) ∧
    bulk_verify_shops_apply admin_id reason_str .verify sh =
      .error "type object datetime.datetime has no attribute timezone" := by
  refine ⟨?_, rfl⟩
  · intro hrole
    simp [verify_shop, hrole, datetime_now_datetime_timezone_utc]

/-- C10 witness: admin 9 attempting to verify a SUSPENDED shop with both
contact flags false draws the 500 handler error. -/
theorem verify_shop_always_errors_witness :
    verify_shop (some ⟨9, "admin"⟩)
        (some ⟨.suspended, false, false, none, none, none, some "old"⟩) =
      .error (500, "Error verifying shop") := by
  exact (verify_shop_always_errors ⟨9, "admin"⟩
    ⟨.suspended, false, false, none, none, none, some "old"⟩ none "").1 rfl

/-! ## Verification OTPs

Embeds `shop_model.VerificationOTP` and its `create_otp` class method: the
OTP table is a list of rows; creating an OTP first marks every unused row for
the same (shop, otp_type) pair as used, then appends the fresh row. -/

/-- One row of the `verification_otp` table (hash and verified_at omitted —
no claim mentions them). -/
structure OtpRow where
  shop_id : Nat
  otp_type : String
  contact_value : String
  expires_at : Nat
  is_used : Bool
deriving DecidableEq, Repr

/-- The (shop_id, otp_type) filter used by `create_otp` and
`get_active_otp`. -/
def otpMatches (shop_id : Nat) (ty : String) (r : OtpRow) : Bool :=
  r.shop_id == shop_id && r.otp_type == ty

/-- Active in the sense of `VerificationOTP.get_active_otp`: unused and not
yet expired at time t. -/
def otpActive (t : Nat) (r : OtpRow) : Bool :=
  !r.is_used && t < r.expires_at

/-- Embedding of `VerificationOTP.create_otp` (shop_model.py lines 120-149): invalidate all
unused rows for the pair, then insert the new row expiring
`expires_in` ticks from now (the code defaults to 25 minutes). -/
def create_otp (now shop_id : Nat) (ty contact : String) (expires_in : Nat)
    (db : List OtpRow) : List OtpRow :=
  (db.map fun r =>
    if otpMatches shop_id ty r && !r.is_used then { r with is_used := true } else r)
    ++ [⟨shop_id, ty, contact, now + expires_in, false⟩]

/-- After invalidation no pre-existing row for the pair is still unused, so
none is active at any time. -/
theorem otp_invalidated_rows_inactive (shop_id : Nat) (ty : String) (t : Nat)
    (r : OtpRow) :
    (otpMatches shop_id ty
        (if otpMatches shop_id ty r && !r.is_used then { r with is_used := true } else r) &&
      otpActive t
        (if otpMatches shop_id ty r && !r.is_used then { r with is_used := true } else r)) =
      false := by
  cases hu : r.is_used
  · cases hm : otpMatches shop_id ty r
    · simp [hm]
    · simp [hm, hu, otpActive]
  · simp [hu, otpActive]

/-- C7 (confirmed): right after create_otp the unique unused row for the
(shop, otp_type) pair is the freshly inserted one, so at every time t at most
one active (unused and unexpired) OTP exists for the pair. -/
theorem create_otp_at_most_one_active (now shop_id : Nat) (ty contact : String)
    (expires_in : Nat) (db : List OtpRow) (t : Nat) :
    ((create_otp now shop_id ty contact expires_in db).countP
        (fun r => otpMatches shop_id ty r && !r.is_used)) = 1 ∧
    ((create_otp now shop_id ty contact expires_in db).countP
        (fun r => otpMatches shop_id ty r && otpActive t r)) ≤ 1 := by
  unfold create_otp
  rw [List.countP_append, List.countP_append]
  have hzero1 :
      ((db.map fun r =>
          if otpMatches shop_id ty r && !r.is_used then { r with is_used := true } else r).countP
        (fun r => otpMatches shop_id ty r && !r.is_used)) = 0 := by
    rw [List.countP_eq_zero]
    intro a ha
    rw [List.mem_map] at ha
    obtain ⟨r, _, rfl⟩ := ha
    cases hu : r.is_used
    · cases hm : otpMatches shop_id ty r
      · simp [hm]
      · simp [hm, hu]
    · simp [hu]
  have hzero2 :
      ((db.map fun r =>
          if otpMatches shop_id ty r && !r.is_used then { r with is_used := true } else r).countP
        (fun r => otpMatches shop_id ty r && otpActive t r)) = 0 := by
    rw [List.countP_eq_zero]
    intro a ha
    rw [List.mem_map] at ha
    obtain ⟨r, _, rfl⟩ := ha
    simpa using otp_invalidated_rows_inactive shop_id ty t r
  rw [hzero1, hzero2]
  constructor
  · simp [List.countP_cons, otpMatches]
  · simp only [Nat.zero_add]
    cases hp : (fun r => otpMatches shop_id ty r && otpActive t r)
        (⟨shop_id, ty, contact, now + expires_in, false⟩ : OtpRow) <;>
      simp [List.countP_cons, hp]

/-! ## Subscriptions

Embeds `subscription_model.Subscription.create_subscription`: deactivate every
active row for the (subscription_type, target_id) pair, then insert the new
row with is_active = true (the column default). -/

/-- One row of the `subscription` table (timestamps other than end_date
omitted — no claim mentions them). -/
structure SubRow where
  subscription_type : String
  target_id : Nat
  end_date : Nat
  is_active : Bool
  created_by : Option Nat
deriving DecidableEq, Repr

/-- The (subscription_type, target_id) filter used by `create_subscription`
and `get_active_subscription`. -/
def subMatches (ty : String) (tid : Nat) (r : SubRow) : Bool :=
  r.subscription_type == ty && r.target_id == tid

/-- Embedding of `Subscription.create_subscription` (subscription_model.py lines 100-119). -/
def create_subscription (ty : String) (tid : Nat) (end_date : Nat)
    (created_by : Option Nat) (db : List SubRow) : List SubRow :=
  (db.map fun r =>
    if subMatches ty tid r && r.is_active then { r with is_active := false } else r)
    ++ [⟨ty, tid, end_date, true, created_by⟩]

/-- Arguments of one `create_subscription` call. -/
structure SubCall where
  ty : String
  tid : Nat
  end_date : Nat
  created_by : Option Nat

/-- A sequence of `create_subscription` calls applied to the initially empty
subscription table. -/
def runSubscriptions (calls : List SubCall) : List SubRow :=
  calls.foldl (fun db c => create_subscription c.ty c.tid c.end_date c.created_by db) []

/-- Number of active rows for a (subscription_type, target_id) pair. -/
def activeSubCount (ty : String) (tid : Nat) (db : List SubRow) : Nat :=
  db.countP fun r => subMatches ty tid r && r.is_active

/-- create_subscription leaves exactly one active row for its own pair. -/
theorem create_subscription_active_self (ty : String) (tid : Nat)
    (e : Nat) (cb : Option Nat) (db : List SubRow) :
    activeSubCount ty tid (create_subscription ty tid e cb db) = 1 := by
  unfold create_subscription activeSubCount
  rw [List.countP_append]
  have hzero :
      ((db.map fun r =>
          if subMatches ty tid r && r.is_active then { r with is_active := false } else r).countP
        (fun r => subMatches ty tid r && r.is_active)) = 0 := by
    rw [List.countP_eq_zero]
    intro a ha
    rw [List.mem_map] at ha
    obtain ⟨r, _, rfl⟩ := ha
    cases hact : r.is_active
    · simp [hact]
    · cases hm : subMatches ty tid r <;> simp [hm, hact]
  rw [hzero]
  simp [List.countP_cons, subMatches]

/-- create_subscription for a different pair does not change the active count
of this pair. -/
theorem create_subscription_active_other (ty : String) (tid : Nat)
    (ty2 : String) (tid2 : Nat) (e : Nat) (cb : Option Nat) (db : List SubRow)
    (h : (ty2 == ty && tid2 == tid) = false) :
    activeSubCount ty tid (create_subscription ty2 tid2 e cb db) =
      activeSubCount ty tid db := by
  unfold create_subscription activeSubCount
  rw [List.countP_append]
  have hnew :
      (([⟨ty2, tid2, e, true, cb⟩] : List SubRow).countP
        (fun r => subMatches ty tid r && r.is_active)) = 0 := by
    simp [List.countP_cons, subMatches, h]
  have hpt : ∀ r : SubRow,
      (subMatches ty tid
          (if subMatches ty2 tid2 r && r.is_active then { r with is_active := false } else r) &&
        (if subMatches ty2 tid2 r && r.is_active then { r with is_active := false } else r).is_active) =
        (subMatches ty tid r && r.is_active) := by
    intro r
    cases hc : (subMatches ty2 tid2 r && r.is_active)
    · simp [hc]
    · obtain ⟨hm2, hact⟩ : subMatches ty2 tid2 r = true ∧ r.is_active = true := by
        simpa [Bool.and_eq_true] using hc
      have hnm : subMatches ty tid r = false := by
        cases hq : subMatches ty tid r
        · rfl
        · exfalso
          obtain ⟨e1, e2⟩ : r.subscription_type = ty ∧ r.target_id = tid := by
            simpa [subMatches] using hq
          obtain ⟨f1, f2⟩ : r.subscription_type = ty2 ∧ r.target_id = tid2 := by
            simpa [subMatches] using hm2
          rw [e1] at f1
          rw [e2] at f2
          rw [← f1, ← f2] at h
          simp at h
      simp [hc, hnm]
  have hsame :
      ((db.map fun r =>
          if subMatches ty2 tid2 r && r.is_active then { r with is_active := false } else r).countP
        (fun r => subMatches ty tid r && r.is_active)) =
        db.countP (fun r => subMatches ty tid r && r.is_active) := by
    induction db with
    | nil => rfl
    | cons r rs ih =>
      simp only [List.map_cons, List.countP_cons, ih, hpt r]
  rw [hnew, hsame]
  omega

/-- Folding any call sequence: one active row for every pair that was the
subject of some call, and the initial count for every other pair. -/
theorem runSubscriptions_active_count (calls : List SubCall) (db : List SubRow)
    (ty : String) (tid : Nat) :
    activeSubCount ty tid
        (calls.foldl (fun db c => create_subscription c.ty c.tid c.end_date c.created_by db) db) =
      if calls.any (fun c => c.ty == ty && c.tid == tid) then 1
      else activeSubCount ty tid db := by
  induction calls generalizing db with
  | nil => simp
  | cons c cs ih =>
    simp only [List.foldl_cons, List.any_cons, ih]
    by_cases hc : (c.ty == ty && c.tid == tid) = true
    · obtain ⟨h1, h2⟩ : c.ty = ty ∧ c.tid = tid := by simpa using hc
      subst h1
      subst h2
      by_cases hcs : cs.any (fun x => x.ty == c.ty && x.tid == c.tid) = true
      · simp [hc, hcs]
      · have hcsf : cs.any (fun x => x.ty == c.ty && x.tid == c.tid) = false := by
          simpa using hcs
        simp [hc, hcsf, create_subscription_active_self]
    · have hcf : (c.ty == ty && c.tid == tid) = false := by simpa using hc
      simp [hcf,
        create_subscription_active_other ty tid c.ty c.tid c.end_date c.created_by db hcf]

/-- C8 (confirmed): starting from the empty table, after any sequence of
create_subscription calls there is exactly one is_active = true row for every
(subscription_type, target_id) pair that was created at least once (and none
for any other pair); moreover each call rewrites the table to the old rows
with every active row of its own pair switched to is_active = false, followed
by the one new active row — so earlier rows for the pair all end inactive. -/
theorem create_subscription_unique_active (calls : List SubCall) (ty : String)
    (tid : Nat) :
    activeSubCount ty tid (runSubscriptions calls) =
      (if calls.any (fun c => c.ty == ty && c.tid == tid) then 1 else 0) ∧
    ∀ cs c, runSubscriptions (cs ++ [c]) =
      ((runSubscriptions cs).map fun r =>
        if subMatches c.ty c.tid r && r.is_active then { r with is_active := false } else r)
        ++ [⟨c.ty, c.tid, c.end_date, true, c.created_by⟩] := by
  constructor
  · have h := runSubscriptions_active_count calls [] ty tid
    simpa [runSubscriptions, activeSubCount] using h
  · intro cs c
    simp [runSubscriptions, List.foldl_append, create_subscription]

/-! ## Category creation

Embeds `admin_routes.create_category` over the three-level category tree
(`category_model`: TRUNK = 0, BRANCH = 1, LEAF = 2).  Errors carry the HTTP
status and the JSON error message. -/

/-- One row of the `category` table, as far as creation needs it. -/
structure Category where
  id : Nat
  name : String
  level : Int
  parent_id : Option Nat
  is_active : Bool
deriving DecidableEq, Repr

/-- The `level_names` dictionary of `create_category`
({0: trunk, 1: branch, 2: leaf}). -/
def level_names (l : Int) : String :=
  if l = 0 then "trunk" else if l = 1 then "branch" else "leaf"

/-- Python truthiness of the optional `parent_id` (absent and 0 are falsy). -/
def parentTruthy : Option Nat → Bool
  | none => false
  | some p => p != 0

/-- Modelled name resolution of `VALID_CATEGORY_LEVELS` inside
admin_routes.create_category: the name is defined in category_model.py (line
8) but never imported into admin_routes (lines 3-7 import only the three
CATEGORY_LEVEL constants), so evaluating it raises NameError; the payload is
str() of the error (Python prints the name quoted). -/
def VALID_CATEGORY_LEVELS_lookup : Except String (List Int) :=
  .error "name VALID_CATEGORY_LEVELS is not defined"

/-- Embedding of `admin_routes.create_category` (lines 61-116), after the
required-field check and the int() parsing (whose ValueError/TypeError is
caught as a 400 format error): the membership test at line 77 evaluates
VALID_CATEGORY_LEVELS and raises NameError, which the
`except (ValueError, TypeError)` handler does not catch, so Flask answers
every such request with a 500.  The level-range, parent-presence,
parent-level and creation logic below the lookup is dead code, kept here as
it stands in the source. -/
def create_category (db : List Category) (nm : String) (level : Int)
    (parent_id : Option Nat) : Except (Nat × String) Category :=
  match VALID_CATEGORY_LEVELS_lookup with
  | .error _ => .error (500, "name VALID_CATEGORY_LEVELS is not defined")
  | .ok valid_levels =>
    if level ∉ valid_levels then
      .error (400, "Invalid category level")
    else if level = 0 ∧ parent_id.isSome then
      .error (400, "Trunk categories cannot have a parent")
    else if level = 1 ∧ parentTruthy parent_id = false then
      .error (400, "Branch categories require a trunk parent")
    else if level = 2 ∧ parentTruthy parent_id = false then
      .error (400, "Leaf categories require a branch parent")
    else if parentTruthy parent_id then
      match db.find? (fun c => c.id == parent_id.getD 0) with
      | none => .error (404, "Parent category not found")
      | some parent =>
        if (level = 1 ∧ parent.level ≠ 0) ∨ (level = 2 ∧ parent.level ≠ 1) then
          .error (400, "Invalid parent category level for " ++ level_names level)
        else
          .ok ⟨db.length + 1, nm, level, parent_id, true⟩
    else
      .ok ⟨db.length + 1, nm, level, parent_id, true⟩

/-- The category table after a create_category call: unchanged when the call
errors, the new row appended when it succeeds. -/
def create_category_db (db : List Category) (nm : String) (level : Int)
    (parent_id : Option Nat) : List Category :=
  match create_category db nm level parent_id with
  | .error _ => db
  | .ok c => db ++ [c]

/-- C9 (counterexample): a request with the out-of-range level 5 does not
draw the ValidationError "Invalid category level" — the membership test
itself raises NameError (VALID_CATEGORY_LEVELS is never imported into
admin_routes) and the request is answered with a 500, refuting the claim
that such requests fail with a ValidationError. -/
theorem create_category_invalid_level_draws_name_error :
    create_category [] "Gadgets" 5 none =
      .error (500, "name VALID_CATEGORY_LEVELS is not defined") ∧
    ((500 : Nat), "name VALID_CATEGORY_LEVELS is not defined") ≠
      ((400 : Nat), "Invalid category level") := by
  exact ⟨rfl, by decide⟩

/-- C9 (amended): every create_category request that passes the
required-field check and int() parsing fails with the uncaught NameError on
VALID_CATEGORY_LEVELS, answered as a 500, whatever the level and parent, and
no category is ever persisted; none of the level-range, parent-presence or
parent-level validation is reachable (the unreachable parent-level mismatch
message, line 100, would moreover name the child level, not the expected
parent level). -/
theorem create_category_always_name_error (db : List Category) (nm : String)
    (level : Int) (parent_id : Option Nat) :
    create_category db nm level parent_id =
      .error (500, "name VALID_CATEGORY_LEVELS is not defined") ∧
    create_category_db db nm level parent_id = db := by
  exact ⟨rfl, rfl⟩

end MW
